import Mathlib

/-!
Shallow embedding of the orders service of `backend/routes/orders.js`:
an in-memory order registry keyed by order id, a numeric id counter,
status-changing operations (create, get, update-status, assign,
accept-by-restaurant) and the SSE broadcast fan-out.

JavaScript `Map` is modelled as an association list with insertion order
(`mapGet`/`mapSet`), JavaScript string interpolation of a number as exact
decimal rendering (`natToDecimal`), `Math.round(x * 0.1)` as exact rational
rounding (Mathlib `round`, which is `⌊x + 1/2⌋`, the same convention as
JavaScript for non-negative arguments), and the `a || b` idiom on strings
as `jsOr`/`jsOrStr` (empty string, `null` and `undefined` are falsy).
Handlers return the (possibly unchanged) store together with an
`Except ApiError` result; an error response never changes the store.
-/

namespace OrdersApi

/-- A line item of an order: name, unit price and quantity as supplied by the
client; `quantity := none` models a request item without a `quantity` field. -/
structure Item where
  name : String
  price : Nat
  quantity : Option Nat
deriving Repr, DecidableEq

/-- The driver reference recorded by the assign operation
(`order.driver = { id: ..., name: ... }`). -/
structure Driver where
  id : Option String
  name : String
deriving Repr, DecidableEq

/-- The authenticated caller (`req.user`), with the fields the handlers read:
`_id` (modelled as `mongoId`), `id`, `name` and `phone`, each possibly absent. -/
structure Caller where
  mongoId : Option String
  id : Option String
  name : Option String
  phone : Option String
deriving Repr, DecidableEq

/-- JavaScript `a || b` where `a` is a possibly-absent string: `undefined`,
`null` and the empty string are falsy. -/
def jsOr (a b : Option String) : Option String :=
  match a with
  | none => b
  | some s => if s = "" then b else some s

/-- JavaScript `a || b` where the fallback `b` is a definite string. -/
def jsOrStr (a : Option String) (b : String) : String :=
  match a with
  | none => b
  | some s => if s = "" then b else s

/-- Effective quantity of an item: the source computes
`Number(it.quantity || 1)`, so an absent or zero (falsy) quantity counts as 1. -/
def effQuantity : Option Nat → Nat
  | none => 1
  | some n => if n = 0 then 1 else n

/-- `items.reduce((sum, it) => sum + Number(it.price) * Number(it.quantity || 1), 0)`. -/
def orderTotal (items : List Item) : Nat :=
  items.foldl (fun sum it => sum + it.price * effQuantity it.quantity) 0

/-- `Math.max(30, Math.round(total * 0.1))`, with the rounding carried out in
exact rational arithmetic. -/
def payoutAmount (items : List Item) : Nat :=
  max 30 (round ((orderTotal items : ℚ) * (1 / 10))).toNat

/-- A stored order, with exactly the fields the create handler writes;
`driver` is absent until the assign operation populates it. -/
structure Order where
  id : String
  userId : Option String
  restaurantId : Option String
  customerName : String
  customerPhone : String
  items : List Item
  deliveryAddress : String
  deliveryInstructions : String
  paymentMethod : String
  createdAt : String
  status : String
  payoutAmount : Nat
  restaurantName : String
  pickupAddress : String
  dropAddress : String
  paymentType : String
  driver : Option Driver
deriving Repr, DecidableEq

/-- The body of a create-order request (string-address form). -/
structure CreateOrderReq where
  items : List Item
  deliveryAddress : String
  paymentMethod : String
  deliveryInstructions : Option String
  restaurantId : Option String
  customerName : Option String
  customerPhone : Option String
  restaurantName : Option String
  pickupAddress : Option String
deriving Repr, DecidableEq

/-- The client-facing error kinds of the handlers: a structured field-error
list (HTTP 400 from express-validator), not-found (404), and the invalid-state
client error (400 with a short message). -/
inductive ApiError where
  | validation (msgs : List String)
  | notFound (msg : String)
  | invalidState (msg : String)
deriving Repr, DecidableEq

/-- `Map.prototype.get`, on the association-list model of the registry. -/
def mapGet (k : String) : List (String × Order) → Option Order
  | [] => none
  | (k2, v) :: rest => if k2 = k then some v else mapGet k rest

/-- `Map.prototype.set`: replaces in place if the key is present, otherwise
appends (JavaScript `Map` preserves insertion order). -/
def mapSet (k : String) (v : Order) : List (String × Order) → List (String × Order)
  | [] => [(k, v)]
  | (k2, v2) :: rest => if k2 = k then (k, v) :: rest else (k2, v2) :: mapSet k v rest

/-- The process-wide mutable state: the in-memory order registry and the
numeric id counter (`let nextOrderNumericId = 1010`). -/
structure OrdersState where
  inMemoryOrders : List (String × Order)
  nextOrderNumericId : Nat
deriving Repr, DecidableEq

/-- The state at process start: empty registry, counter seeded at 1010. -/
def initialState : OrdersState :=
  { inMemoryOrders := [], nextOrderNumericId := 1010 }

/-- Decimal digits of a natural number, most significant first (the rendering
JavaScript applies to a number inside a template literal). -/
def natToDigits (n : Nat) : List Char :=
  if _h : n < 10 then [Nat.digitChar n]
  else natToDigits (n / 10) ++ [Nat.digitChar (n % 10)]
decreasing_by exact Nat.div_lt_self (by omega) (by omega)

/-- Decimal rendering of a natural number as a string. -/
def natToDecimal (n : Nat) : String :=
  String.mk (natToDigits n)

/-- `const generateOrderId = () => `ORD-${nextOrderNumericId++}`` — the id
built from a given counter value (the counter increment is handled by the
create operation). -/
def generateOrderId (n : Nat) : String :=
  "ORD-" ++ natToDecimal n

/-- The six allowed status values of the update-status validator. -/
def validStatuses : List String :=
  ["pending", "confirmed", "preparing", "out_for_delivery", "delivered", "cancelled"]

/-- The statuses from which an order may be assigned
(`['pending', 'confirmed', 'preparing'].includes(order.status)`). -/
def availableStatuses : List String :=
  ["pending", "confirmed", "preparing"]

/-- The field errors collected by the create-order validators, in validator
order. -/
def createValidationErrors (req : CreateOrderReq) : List String :=
  (if req.items.isEmpty then ["At least one item is required"] else []) ++
  (if req.deliveryAddress = "" then ["Delivery address is required"] else []) ++
  (if req.paymentMethod = "" then ["Payment method is required"] else [])

/-- The `newOrder` object literal of the create handler, built from the
request, the caller, the creation timestamp and the current counter value. -/
def newOrderOf (user : Caller) (now : String) (req : CreateOrderReq)
    (n : Nat) : Order :=
  { id := generateOrderId n
    userId := jsOr (jsOr user.mongoId user.id) none
    restaurantId := jsOr req.restaurantId none
    customerName := jsOrStr req.customerName (jsOrStr user.name "Customer")
    customerPhone := jsOrStr req.customerPhone (jsOrStr user.phone "N/A")
    items := req.items
    deliveryAddress := req.deliveryAddress
    deliveryInstructions := jsOrStr req.deliveryInstructions ""
    paymentMethod := req.paymentMethod
    createdAt := now
    status := "pending"
    payoutAmount := payoutAmount req.items
    restaurantName := jsOrStr req.restaurantName "Restaurant"
    pickupAddress := jsOrStr req.pickupAddress "Restaurant Address"
    dropAddress := req.deliveryAddress
    paymentType := if req.paymentMethod = "cash" then "COD" else "Paid Online"
    driver := none }

/-- `POST /` — create order. On validation failure returns the field errors
and leaves the store unchanged; on success builds the new order exactly as the
handler does, stores it under its id, bumps the counter and returns it. -/
def createOrder (user : Caller) (now : String) (req : CreateOrderReq)
    (s : OrdersState) : OrdersState × Except ApiError Order :=
  let errs := createValidationErrors req
  if errs ≠ [] then
    (s, .error (.validation errs))
  else
    let newOrder : Order := newOrderOf user now req s.nextOrderNumericId
    ({ s with
        inMemoryOrders := mapSet newOrder.id newOrder s.inMemoryOrders
        nextOrderNumericId := s.nextOrderNumericId + 1 },
     .ok newOrder)

/-- `GET /:id` — fetch one order; 404 if absent. -/
def getOrder (id : String) (s : OrdersState) : Except ApiError Order :=
  match mapGet id s.inMemoryOrders with
  | none => .error (.notFound "Order not found")
  | some o => .ok o

/-- `PUT /:id/status` — update order status: reject a value outside the six
allowed statuses before touching the store; 404 if the order is absent;
otherwise overwrite the status (no transition-graph check) and store. -/
def updateStatus (id newStatus : String) (s : OrdersState) :
    OrdersState × Except ApiError Order :=
  if newStatus ∉ validStatuses then
    (s, .error (.validation ["Invalid order status"]))
  else
    match mapGet id s.inMemoryOrders with
    | none => (s, .error (.notFound "Order not found"))
    | some o =>
      let o2 := { o with status := newStatus }
      ({ s with inMemoryOrders := mapSet o2.id o2 s.inMemoryOrders }, .ok o2)

/-- `POST /:id/assign` — 404 if absent; client error unless the status is in
`availableStatuses`; on success set status to `out_for_delivery` and record
the caller as driver. -/
def assignOrder (user : Caller) (id : String) (s : OrdersState) :
    OrdersState × Except ApiError Order :=
  match mapGet id s.inMemoryOrders with
  | none => (s, .error (.notFound "Order not found"))
  | some o =>
    if o.status ∉ availableStatuses then
      (s, .error (.invalidState "Order is not available for assignment"))
    else
      let o2 := { o with
                    status := "out_for_delivery"
                    driver := some { id := jsOr user.mongoId user.id
                                     name := jsOrStr user.name "Driver" } }
      ({ s with inMemoryOrders := mapSet o2.id o2 s.inMemoryOrders }, .ok o2)

/-- `POST /:id/accept-restaurant` — 404 if absent; client error unless the
status is `pending`; on success set status to `confirmed`. -/
def acceptByRestaurant (id : String) (s : OrdersState) :
    OrdersState × Except ApiError Order :=
  match mapGet id s.inMemoryOrders with
  | none => (s, .error (.notFound "Order not found"))
  | some o =>
    if o.status ≠ "pending" then
      (s, .error (.invalidState "Order cannot be accepted"))
    else
      let o2 := { o with status := "confirmed" }
      ({ s with inMemoryOrders := mapSet o2.id o2 s.inMemoryOrders }, .ok o2)

/-- A registered SSE subscriber: an identifier, whether the connection is
still open, and the frames written to it so far. -/
structure SSEClient where
  cid : Nat
  isOpen : Bool
  received : List String
deriving Repr, DecidableEq

/-- The frame built by `broadcastOrderEvent`:
`event: <type>\ndata: <payload>\n\n`. -/
def sseData (type payload : String) : String :=
  "event: " ++ type ++ "\n" ++ "data: " ++ payload ++ "\n\n"

/-- `res.write(data)`: appends the frame when the connection is open, raises
when it is closed. -/
def sseWrite (data : String) (c : SSEClient) : Except String SSEClient :=
  if c.isOpen then .ok { c with received := c.received ++ [data] }
  else .error "write after end"

/-- The loop body `try { res.write(data); } catch (_) {}`: a failed write is
swallowed and leaves the client as it was. -/
def tryWrite (data : String) (c : SSEClient) : SSEClient :=
  match sseWrite data c with
  | .ok c2 => c2
  | .error _ => c

/-- `broadcastOrderEvent(type, payload)`: iterate over all registered clients
attempting delivery to each; the loop runs in the caller's error monad but
every write is guarded by try/catch, so no failure escapes. -/
def broadcastOrderEvent (type payload : String) :
    List SSEClient → Except String (List SSEClient)
  | [] => .ok []
  | c :: rest => do
    let c2 := tryWrite (sseData type payload) c
    let rest2 ← broadcastOrderEvent type payload rest
    pure (c2 :: rest2)

/-! ### Helper lemmas -/

theorem mapGet_mapSet_self (k : String) (v : Order) (m : List (String × Order)) :
    mapGet k (mapSet k v m) = some v := by
  induction m with
  | nil => simp [mapGet, mapSet]
  | cons kv rest ih =>
    obtain ⟨k2, v2⟩ := kv
    by_cases h : k2 = k <;> simp [mapGet, mapSet, h, ih]

/-- Value of a decimal digit list, most significant first: the left inverse of
`natToDigits`. -/
def digitsToNat (l : List Char) : Nat :=
  l.foldl (fun acc c => acc * 10 + (c.toNat - 48)) 0

theorem digitChar_val (n : Nat) (h : n < 10) : (Nat.digitChar n).toNat - 48 = n := by
  have H : ∀ m < 10, (Nat.digitChar m).toNat - 48 = m := by decide
  exact H n h

theorem digitsToNat_snoc (xs : List Char) (c : Char) :
    digitsToNat (xs ++ [c]) = digitsToNat xs * 10 + (c.toNat - 48) := by
  simp [digitsToNat, List.foldl_append]

theorem digitsToNat_natToDigits (n : Nat) : digitsToNat (natToDigits n) = n := by
  induction n using Nat.strong_induction_on with
  | _ n ih =>
    by_cases h : n < 10
    · rw [natToDigits, dif_pos h]
      simpa [digitsToNat] using digitChar_val n h
    · rw [natToDigits, dif_neg h, digitsToNat_snoc,
        ih (n / 10) (Nat.div_lt_self (by omega) (by omega)),
        digitChar_val (n % 10) (by omega)]
      omega

theorem natToDecimal_injective : Function.Injective natToDecimal := by
  intro a b h
  have h2 : natToDigits a = natToDigits b := by
    simpa [natToDecimal] using congrArg String.data h
  calc a = digitsToNat (natToDigits a) := (digitsToNat_natToDigits a).symm
    _ = digitsToNat (natToDigits b) := by rw [h2]
    _ = b := digitsToNat_natToDigits b

theorem generateOrderId_injective : Function.Injective generateOrderId := by
  intro a b h
  apply natToDecimal_injective
  have h3 : "ORD-".data ++ (natToDecimal a).data =
      "ORD-".data ++ (natToDecimal b).data := congrArg String.data h
  have h4 := List.append_cancel_left h3
  exact congrArg String.mk (by simpa using h4)

/-- The exact-rational rounding of 10% of the total agrees with natural-number
arithmetic: `round (t / 10) = (t + 5) / 10`. -/
theorem payoutAmount_eq_div (items : List Item) :
    payoutAmount items = max 30 ((orderTotal items + 5) / 10) := by
  have h1 : round ((orderTotal items : ℚ) * (1 / 10)) =
      ⌊(((orderTotal items + 5 : ℕ) : ℚ)) / ((10 : ℕ) : ℚ)⌋ := by
    rw [round_eq]
    congr 1
    push_cast
    ring
  rw [payoutAmount, h1, Int.floor_toNat, Nat.floor_div_eq_div]

/-! ### Concrete sample data used as witnesses and counterexamples -/

/-- Sample line items totalling price × quantity = 400·2 + 200·1 = 1000;
the second item has no `quantity` field. -/
def sampleItems : List Item :=
  [{ name := "Margherita", price := 400, quantity := some 2 },
   { name := "Garlic Bread", price := 200, quantity := none }]

def sampleUser : Caller :=
  { mongoId := some "64b0f0", id := none, name := some "Dana", phone := some "5550100" }

def sampleReq : CreateOrderReq :=
  { items := sampleItems
    deliveryAddress := "12 Main St"
    paymentMethod := "cash"
    deliveryInstructions := none
    restaurantId := none
    customerName := none
    customerPhone := none
    restaurantName := none
    pickupAddress := none }

/-- An already-delivered order sitting in the registry. -/
def deliveredOrder : Order :=
  { id := "ORD-1005", userId := some "64b0f0", restaurantId := none,
    customerName := "Dana", customerPhone := "5550100",
    items := sampleItems, deliveryAddress := "12 Main St",
    deliveryInstructions := "", paymentMethod := "cash",
    createdAt := "2026-01-01T00:00:00.000Z", status := "delivered",
    payoutAmount := 100, restaurantName := "Restaurant",
    pickupAddress := "Restaurant Address", dropAddress := "12 Main St",
    paymentType := "COD", driver := none }

/-- A pending order sitting in the registry. -/
def pendingOrder : Order :=
  { deliveredOrder with id := "ORD-1006", status := "pending" }

/-- A registry holding one delivered and one pending order. -/
def sampleState : OrdersState :=
  { inMemoryOrders := [("ORD-1005", deliveredOrder), ("ORD-1006", pendingOrder)],
    nextOrderNumericId := 1011 }

/-- The pending order after assignment to `sampleUser`. -/
def assignedOrder : Order :=
  { pendingOrder with
      status := "out_for_delivery"
      driver := some { id := some "64b0f0", name := "Dana" } }

/-- `sampleState` after `assignOrder sampleUser "ORD-1006"`. -/
def assignedState : OrdersState :=
  { sampleState with
      inMemoryOrders := mapSet "ORD-1006" assignedOrder sampleState.inMemoryOrders }

/-- An order with its status overwritten, all other fields kept. -/
def withStatus (o : Order) (st : String) : Order :=
  { o with status := st }

/-- The driver record the assign handler builds from the caller. -/
def driverOf (user : Caller) : Driver :=
  { id := jsOr user.mongoId user.id, name := jsOrStr user.name "Driver" }

/-- An order as the assign handler rewrites it: status `out_for_delivery`,
driver set to the caller. -/
def withAssign (o : Order) (user : Caller) : Order :=
  { o with status := "out_for_delivery", driver := some (driverOf user) }

/-- A successful create: the returned order is `newOrderOf` at the current
counter, which is stored under its id while the counter is bumped. -/
theorem createOrder_ok (user : Caller) (now : String) (req : CreateOrderReq)
    (s : OrdersState) (hvalid : createValidationErrors req = []) :
    createOrder user now req s =
      ({ s with
          inMemoryOrders :=
            mapSet (newOrderOf user now req s.nextOrderNumericId).id
              (newOrderOf user now req s.nextOrderNumericId) s.inMemoryOrders
          nextOrderNumericId := s.nextOrderNumericId + 1 },
       Except.ok (newOrderOf user now req s.nextOrderNumericId)) := by
  simp only [createOrder]
  rw [if_neg (not_not_intro hvalid)]

/-- A failed create returns the collected field errors and the store
unchanged. -/
theorem createOrder_err (user : Caller) (now : String) (req : CreateOrderReq)
    (s : OrdersState) (hvalid : createValidationErrors req ≠ []) :
    createOrder user now req s =
      (s, Except.error (ApiError.validation (createValidationErrors req))) := by
  simp only [createOrder]
  rw [if_pos hvalid]

theorem getOrder_of_mapGet (id : String) (s : OrdersState) (o : Order)
    (h : mapGet id s.inMemoryOrders = some o) : getOrder id s = Except.ok o := by
  simp [getOrder, h]

/-! ### Claims -/

/-- C1 counterexample: the claim that status never regresses except to
`cancelled` is false — the generic update-status operation accepts any of the
six enumerated values, so a `delivered` order is moved back to `pending`
(a regression to an earlier state, not a cancellation) and the call succeeds. -/
theorem C1_counterexample :
    mapGet "ORD-1005" sampleState.inMemoryOrders = some deliveredOrder ∧
    deliveredOrder.status = "delivered" ∧
    (updateStatus "ORD-1005" "pending" sampleState).2 =
      Except.ok { deliveredOrder with status := "pending" } := by
  refine ⟨rfl, rfl, rfl⟩

/-- C1 (amended): `assign` succeeds only from
`{pending, confirmed, preparing}` and moves the status forward to
`out_for_delivery`; `acceptByRestaurant` succeeds only from `pending` and
moves it forward to `confirmed`; but the generic update-status operation sets
any of the six enumerated values whenever the order exists, with no
forward-only enforcement, so regressions are possible through it. -/
theorem C1_amended (user : Caller) (id newStatus : String) (s : OrdersState) :
    (∀ s2 o2, assignOrder user id s = (s2, Except.ok o2) →
      ∃ o, mapGet id s.inMemoryOrders = some o ∧ o.status ∈ availableStatuses ∧
        o2.status = "out_for_delivery") ∧
    (∀ s2 o2, acceptByRestaurant id s = (s2, Except.ok o2) →
      ∃ o, mapGet id s.inMemoryOrders = some o ∧ o.status = "pending" ∧
        o2.status = "confirmed") ∧
    (∀ o, mapGet id s.inMemoryOrders = some o → newStatus ∈ validStatuses →
      ∃ s2 o2, updateStatus id newStatus s = (s2, Except.ok o2) ∧
        o2.status = newStatus) := by
  refine ⟨?_, ?_, ?_⟩
  · intro s2 o2 h
    rw [assignOrder] at h
    split at h
    · simp at h
    · next o hg =>
      split at h
      · simp at h
      · next hs =>
        simp only [Prod.mk.injEq, Except.ok.injEq] at h
        exact ⟨o, hg, not_not.mp hs, by rw [← h.2]⟩
  · intro s2 o2 h
    rw [acceptByRestaurant] at h
    split at h
    · simp at h
    · next o hg =>
      split at h
      · simp at h
      · next hs =>
        simp only [Prod.mk.injEq, Except.ok.injEq] at h
        exact ⟨o, hg, not_not.mp hs, by rw [← h.2]⟩
  · intro o hg hv
    have key : updateStatus id newStatus s =
        ({ s with
            inMemoryOrders :=
              mapSet (withStatus o newStatus).id (withStatus o newStatus)
                s.inMemoryOrders },
         Except.ok (withStatus o newStatus)) := by
      rw [updateStatus, if_neg (not_not_intro hv), hg]
      rfl
    exact ⟨_, _, key, rfl⟩

/-- C1 amended-claim witness: assigning the pending sample order succeeds and
moves its status forward to `out_for_delivery`. -/
theorem C1_amended_witness :
    ∃ o, mapGet "ORD-1006" sampleState.inMemoryOrders = some o ∧
      o.status ∈ availableStatuses ∧ assignedOrder.status = "out_for_delivery" :=
  (C1_amended sampleUser "ORD-1006" "pending" sampleState).1
    assignedState assignedOrder rfl

/-- C5: an update-status request whose value is outside the six enumerated
statuses is rejected with the validation error before the registry is read,
and the whole store is returned unchanged. -/
theorem C5_invalid_status_rejected (id newStatus : String) (s : OrdersState)
    (h : newStatus ∉ validStatuses) :
    updateStatus id newStatus s =
      (s, Except.error (ApiError.validation ["Invalid order status"])) := by
  simp [updateStatus, h]

/-- C5 witness: the value `"shipped"` is rejected and `sampleState` is left
exactly as it was. -/
theorem C5_witness :
    "shipped" ∉ validStatuses ∧
    updateStatus "ORD-1005" "shipped" sampleState =
      (sampleState, Except.error (ApiError.validation ["Invalid order status"])) :=
  ⟨by decide, C5_invalid_status_rejected "ORD-1005" "shipped" sampleState (by decide)⟩

/-- C2: every successfully created order has
`payoutAmount = max(30, round(0.1 · Σ price·quantity))`, equivalently
`max 30 ((total + 5) / 10)` in natural-number arithmetic; in particular a
total of 1000 yields a payout of 100. -/
theorem C2_payout (user : Caller) (now : String) (req : CreateOrderReq)
    (s s2 : OrdersState) (o : Order)
    (h : createOrder user now req s = (s2, Except.ok o)) :
    o.payoutAmount = max 30 (round ((orderTotal req.items : ℚ) * (1 / 10))).toNat ∧
    o.payoutAmount = max 30 ((orderTotal req.items + 5) / 10) ∧
    (orderTotal req.items = 1000 → o.payoutAmount = 100) := by
  by_cases hv : createValidationErrors req = []
  · rw [createOrder_ok user now req s hv] at h
    have h2 := congrArg Prod.snd h
    simp only [Except.ok.injEq] at h2
    have hpa : o.payoutAmount = payoutAmount req.items := by
      rw [← h2]
      rfl
    refine ⟨hpa, ?_, ?_⟩
    · rw [hpa, payoutAmount_eq_div]
    · intro ht
      rw [hpa, payoutAmount_eq_div, ht]
      decide
  · rw [createOrder_err user now req s hv] at h
    simp at h

/-- C2 witness: the sample request totals 1000 and its created order's payout
is 100. -/
theorem C2_witness :
    orderTotal sampleReq.items = 1000 ∧
    (newOrderOf sampleUser "2026-02-03T12:00:00.000Z" sampleReq 1010).payoutAmount
      = 100 := by
  have h := createOrder_ok sampleUser "2026-02-03T12:00:00.000Z" sampleReq
    initialState rfl
  have h2 := C2_payout sampleUser "2026-02-03T12:00:00.000Z" sampleReq
    initialState _ _ h
  exact ⟨rfl, h2.2.2 rfl⟩

/-- C3: `assign` replies not-found when the id is absent (store unchanged),
replies the invalid-state client error when the current status is outside
{pending, confirmed, preparing} — in particular `delivered` is outside that
set — and on success sets the status to `out_for_delivery`, records the
caller as the assigned driver, and stores the updated order. -/
theorem C3_assign_contract (user : Caller) (id : String) (s : OrdersState) :
    (mapGet id s.inMemoryOrders = none →
      assignOrder user id s =
        (s, Except.error (ApiError.notFound "Order not found"))) ∧
    (∀ o, mapGet id s.inMemoryOrders = some o → o.status ∉ availableStatuses →
      assignOrder user id s =
        (s, Except.error
          (ApiError.invalidState "Order is not available for assignment"))) ∧
    "delivered" ∉ availableStatuses ∧
    (∀ o, mapGet id s.inMemoryOrders = some o → o.status ∈ availableStatuses →
      ∃ s2 o2, assignOrder user id s = (s2, Except.ok o2) ∧
        o2.status = "out_for_delivery" ∧
        o2.driver = some (driverOf user) ∧
        mapGet o2.id s2.inMemoryOrders = some o2) := by
  refine ⟨?_, ?_, by decide, ?_⟩
  · intro hg
    simp [assignOrder, hg]
  · intro o hg hs
    simp only [assignOrder, hg]
    rw [if_pos hs]
  · intro o hg hs
    have key : assignOrder user id s =
        ({ s with
            inMemoryOrders :=
              mapSet (withAssign o user).id (withAssign o user)
                s.inMemoryOrders },
         Except.ok (withAssign o user)) := by
      simp only [assignOrder, hg]
      rw [if_neg (not_not_intro hs)]
      rfl
    exact ⟨_, _, key, rfl, rfl, mapGet_mapSet_self _ _ _⟩

/-- C3 witness: an absent id is not found, the delivered sample order is not
assignable, and the pending sample order is assigned to the caller. -/
theorem C3_witness :
    assignOrder sampleUser "ORD-9999" sampleState =
      (sampleState, Except.error (ApiError.notFound "Order not found")) ∧
    assignOrder sampleUser "ORD-1005" sampleState =
      (sampleState, Except.error
        (ApiError.invalidState "Order is not available for assignment")) ∧
    ∃ s2 o2, assignOrder sampleUser "ORD-1006" sampleState = (s2, Except.ok o2) ∧
      o2.status = "out_for_delivery" ∧
      o2.driver = some (driverOf sampleUser) ∧
      mapGet o2.id s2.inMemoryOrders = some o2 := by
  refine ⟨(C3_assign_contract sampleUser "ORD-9999" sampleState).1 rfl,
    (C3_assign_contract sampleUser "ORD-1005" sampleState).2.1
      deliveredOrder rfl (by decide),
    (C3_assign_contract sampleUser "ORD-1006" sampleState).2.2.2
      pendingOrder rfl (by decide)⟩

/-- C4: on a stored pending order (keyed by its own id) the first
`acceptByRestaurant` succeeds and sets the status to `confirmed`; repeating
the call on the resulting store fails with the invalid-state error, returning
that store unchanged. -/
theorem C4_accept_twice (id : String) (s : OrdersState) (o : Order)
    (hg : mapGet id s.inMemoryOrders = some o) (hid : o.id = id)
    (hp : o.status = "pending") :
    ∃ s2 o2, acceptByRestaurant id s = (s2, Except.ok o2) ∧
      o2.status = "confirmed" ∧
      acceptByRestaurant id s2 =
        (s2, Except.error (ApiError.invalidState "Order cannot be accepted")) := by
  have key : acceptByRestaurant id s =
      ({ s with
          inMemoryOrders :=
            mapSet (withStatus o "confirmed").id (withStatus o "confirmed")
              s.inMemoryOrders },
       Except.ok (withStatus o "confirmed")) := by
    simp only [acceptByRestaurant, hg]
    rw [if_neg (not_not_intro hp)]
    rfl
  refine ⟨_, _, key, rfl, ?_⟩
  have hid2 : (withStatus o "confirmed").id = id := hid
  have hg2 : mapGet id
      (mapSet (withStatus o "confirmed").id (withStatus o "confirmed")
        s.inMemoryOrders) = some (withStatus o "confirmed") := by
    rw [hid2]
    have := mapGet_mapSet_self id (withStatus o "confirmed") s.inMemoryOrders
    rw [← hid2] at this
    rw [hid2] at this
    exact this
  have hne : (withStatus o "confirmed").status ≠ "pending" := by
    show ("confirmed" : String) ≠ "pending"
    decide
  simp only [acceptByRestaurant, hg2]
  rw [if_pos hne]

/-- C4 witness: accepting the pending sample order twice — the first call
confirms it, the second is rejected with the invalid-state error. -/
theorem C4_witness :
    ∃ s2 o2, acceptByRestaurant "ORD-1006" sampleState = (s2, Except.ok o2) ∧
      o2.status = "confirmed" ∧
      acceptByRestaurant "ORD-1006" s2 =
        (s2, Except.error (ApiError.invalidState "Order cannot be accepted")) :=
  C4_accept_twice "ORD-1006" sampleState pendingOrder rfl rfl rfl

/-- C7: every valid create request yields an order whose status is `pending`,
and fetching the id returned by create from the post-create store returns
that same order. -/
theorem C7_create_then_get (user : Caller) (now : String) (req : CreateOrderReq)
    (s : OrdersState) (hvalid : createValidationErrors req = []) :
    ∃ s2 o, createOrder user now req s = (s2, Except.ok o) ∧
      o.status = "pending" ∧ getOrder o.id s2 = Except.ok o := by
  refine ⟨_, _, createOrder_ok user now req s hvalid, rfl, ?_⟩
  exact getOrder_of_mapGet _ _ _ (mapGet_mapSet_self _ _ _)

/-- C7 witness: creating the sample order from the initial state and reading
it back by the returned id. -/
theorem C7_witness :
    ∃ s2 o, createOrder sampleUser "2026-02-03T12:00:00.000Z" sampleReq
        initialState = (s2, Except.ok o) ∧
      o.status = "pending" ∧ getOrder o.id s2 = Except.ok o :=
  C7_create_then_get sampleUser "2026-02-03T12:00:00.000Z" sampleReq
    initialState rfl

theorem broadcast_eq_map (type payload : String) (clients : List SSEClient) :
    broadcastOrderEvent type payload clients =
      Except.ok (clients.map (tryWrite (sseData type payload))) := by
  induction clients with
  | nil => rfl
  | cons c rest ih => simp [broadcastOrderEvent, ih]

theorem tryWrite_open (data : String) (c : SSEClient) (h : c.isOpen = true) :
    (tryWrite data c).received = c.received ++ [data] := by
  simp [tryWrite, sseWrite, h]

theorem tryWrite_closed (data : String) (c : SSEClient) (h : c.isOpen = false) :
    tryWrite data c = c := by
  simp [tryWrite, sseWrite, h]

/-- C6: broadcasting never raises to the caller — with any subscriber list it
returns `ok`, in particular `ok []` with zero subscribers — and it attempts
delivery to every registered subscriber: every open subscriber has the frame
appended (regardless of closed subscribers anywhere in the iteration order)
while a closed subscriber's failure is swallowed, leaving it untouched. -/
theorem C6_broadcast_isolation (type payload : String) (clients : List SSEClient) :
    (∃ cs2, broadcastOrderEvent type payload clients = Except.ok cs2 ∧
      cs2.length = clients.length ∧
      ∀ i (h1 : i < clients.length) (h2 : i < cs2.length),
        (clients[i].isOpen = true →
          cs2[i].received = clients[i].received ++ [sseData type payload]) ∧
        (clients[i].isOpen = false → cs2[i] = clients[i])) ∧
    broadcastOrderEvent type payload [] = Except.ok [] := by
  refine ⟨⟨clients.map (tryWrite (sseData type payload)),
    broadcast_eq_map type payload clients, by simp, ?_⟩, rfl⟩
  intro i h1 h2
  constructor
  · intro hopen
    rw [List.getElem_map]
    exact tryWrite_open _ _ hopen
  · intro hclosed
    rw [List.getElem_map]
    exact tryWrite_closed _ _ hclosed

/-- A subscriber whose connection has been closed. -/
def closedClient : SSEClient :=
  { cid := 1, isOpen := false, received := [] }

/-- A subscriber whose connection is open. -/
def openClient : SSEClient :=
  { cid := 2, isOpen := true, received := [] }

/-- C6 witness: broadcasting to a closed subscriber followed by an open one
returns `ok` with both subscribers attempted, and broadcasting to no
subscribers returns `ok []`. -/
theorem C6_witness :
    (∃ cs2, broadcastOrderEvent "order_created" "payload1"
        [closedClient, openClient] = Except.ok cs2 ∧ cs2.length = 2) ∧
    broadcastOrderEvent "order_created" "payload1" [] = Except.ok [] := by
  obtain ⟨⟨cs2, h1, hlen, hget⟩, hnil⟩ :=
    C6_broadcast_isolation "order_created" "payload1" [closedClient, openClient]
  have hlen2 : cs2.length = 2 := by simpa using hlen
  have hdeliver := (hget 1 (by decide) (by omega)).1 (by decide)
  exact ⟨⟨cs2, h1, hlen2⟩, hnil⟩

/-- Every field of `o2` except `status` agrees with `o`. -/
def sameExceptStatus (o o2 : Order) : Prop :=
  o2.payoutAmount = o.payoutAmount ∧ o2.id = o.id ∧ o2.userId = o.userId ∧
  o2.restaurantId = o.restaurantId ∧ o2.customerName = o.customerName ∧
  o2.customerPhone = o.customerPhone ∧ o2.items = o.items ∧
  o2.deliveryAddress = o.deliveryAddress ∧
  o2.deliveryInstructions = o.deliveryInstructions ∧
  o2.paymentMethod = o.paymentMethod ∧ o2.createdAt = o.createdAt ∧
  o2.restaurantName = o.restaurantName ∧ o2.pickupAddress = o.pickupAddress ∧
  o2.dropAddress = o.dropAddress ∧ o2.paymentType = o.paymentType ∧
  o2.driver = o.driver

/-- Every field of `o2` except `status` and `driver` agrees with `o`. -/
def sameExceptStatusDriver (o o2 : Order) : Prop :=
  o2.payoutAmount = o.payoutAmount ∧ o2.id = o.id ∧ o2.userId = o.userId ∧
  o2.restaurantId = o.restaurantId ∧ o2.customerName = o.customerName ∧
  o2.customerPhone = o.customerPhone ∧ o2.items = o.items ∧
  o2.deliveryAddress = o.deliveryAddress ∧
  o2.deliveryInstructions = o.deliveryInstructions ∧
  o2.paymentMethod = o.paymentMethod ∧ o2.createdAt = o.createdAt ∧
  o2.restaurantName = o.restaurantName ∧ o2.pickupAddress = o.pickupAddress ∧
  o2.dropAddress = o.dropAddress ∧ o2.paymentType = o.paymentType

/-- C9: the mutating operations never recompute `payoutAmount` — each leaves
every field except `status` (and, for assign, `driver`) of the stored order
unchanged in the order it returns. -/
theorem C9_frame (user : Caller) (id newStatus : String) (s : OrdersState) :
    (∀ o s2 o2, mapGet id s.inMemoryOrders = some o →
      updateStatus id newStatus s = (s2, Except.ok o2) →
      sameExceptStatus o o2) ∧
    (∀ o s2 o2, mapGet id s.inMemoryOrders = some o →
      assignOrder user id s = (s2, Except.ok o2) →
      sameExceptStatusDriver o o2 ∧ o2.driver = some (driverOf user)) ∧
    (∀ o s2 o2, mapGet id s.inMemoryOrders = some o →
      acceptByRestaurant id s = (s2, Except.ok o2) →
      sameExceptStatus o o2) := by
  refine ⟨?_, ?_, ?_⟩
  · intro o s2 o2 hg h
    rw [updateStatus] at h
    split at h
    · simp at h
    · split at h
      · simp at h
      · next o3 hg3 =>
        rw [hg] at hg3
        injection hg3 with he
        subst he
        have h2 := congrArg Prod.snd h
        simp only [Except.ok.injEq] at h2
        rw [← h2]
        exact ⟨rfl, rfl, rfl, rfl, rfl, rfl, rfl, rfl, rfl, rfl, rfl, rfl,
          rfl, rfl, rfl, rfl⟩
  · intro o s2 o2 hg h
    rw [assignOrder] at h
    split at h
    · simp at h
    · next o3 hg3 =>
      rw [hg] at hg3
      injection hg3 with he
      subst he
      split at h
      · simp at h
      · have h2 := congrArg Prod.snd h
        simp only [Except.ok.injEq] at h2
        rw [← h2]
        exact ⟨⟨rfl, rfl, rfl, rfl, rfl, rfl, rfl, rfl, rfl, rfl, rfl, rfl,
          rfl, rfl, rfl⟩, rfl⟩
  · intro o s2 o2 hg h
    rw [acceptByRestaurant] at h
    split at h
    · simp at h
    · next o3 hg3 =>
      rw [hg] at hg3
      injection hg3 with he
      subst he
      split at h
      · simp at h
      · have h2 := congrArg Prod.snd h
        simp only [Except.ok.injEq] at h2
        rw [← h2]
        exact ⟨rfl, rfl, rfl, rfl, rfl, rfl, rfl, rfl, rfl, rfl, rfl, rfl,
          rfl, rfl, rfl, rfl⟩

/-- The delivered sample order after a status update to `confirmed`. -/
def confirmedDelivered : Order :=
  withStatus deliveredOrder "confirmed"

/-- `sampleState` after that update. -/
def confirmedDeliveredState : OrdersState :=
  { sampleState with
      inMemoryOrders :=
        mapSet "ORD-1005" confirmedDelivered sampleState.inMemoryOrders }

/-- C9 witness: updating the delivered sample order's status preserves every
other field, `payoutAmount` included. -/
theorem C9_witness : sameExceptStatus deliveredOrder confirmedDelivered :=
  (C9_frame sampleUser "ORD-1005" "confirmed" sampleState).1 deliveredOrder
    confirmedDeliveredState confirmedDelivered rfl rfl

/-- C10: an item whose `quantity` is absent or zero (falsy) is counted with
quantity 1 in the total, and creation performs no per-item validation — any
request with a non-empty item list, a non-empty address and a non-empty
payment method succeeds, whatever the items' quantities. -/
theorem C10_quantity_default (it : Item) (items : List Item) (user : Caller)
    (now : String) (req : CreateOrderReq) (s : OrdersState) :
    effQuantity none = 1 ∧ effQuantity (some 0) = 1 ∧
    orderTotal ({ it with quantity := none } :: items) =
      orderTotal ({ it with quantity := some 1 } :: items) ∧
    orderTotal ({ it with quantity := some 0 } :: items) =
      orderTotal ({ it with quantity := some 1 } :: items) ∧
    (req.items ≠ [] → req.deliveryAddress ≠ "" → req.paymentMethod ≠ "" →
      ∃ s2 o, createOrder user now req s = (s2, Except.ok o)) := by
  refine ⟨rfl, rfl, rfl, rfl, ?_⟩
  intro h1 h2 h3
  have h0 : req.items.isEmpty = false := by
    cases hq : req.items with
    | nil => exact absurd hq h1
    | cons a l => rfl
  have hvalid : createValidationErrors req = [] := by
    simp [createValidationErrors, h0, h2, h3]
  exact ⟨_, _, createOrder_ok user now req s hvalid⟩

/-- C10 witness: the sample request — whose second item has no quantity
field — is created successfully. -/
theorem C10_witness :
    ∃ s2 o, createOrder sampleUser "2026-02-03T12:05:00.000Z" sampleReq
      initialState = (s2, Except.ok o) :=
  (C10_quantity_default { name := "Garlic Bread", price := 200, quantity := none }
    [] sampleUser "2026-02-03T12:05:00.000Z" sampleReq initialState).2.2.2.2
    (by decide) (by decide) (by decide)

/-- A sequence of create requests applied in order, collecting the orders of
the successful creations (a failed validation does not touch the counter). -/
def runCreates (user : Caller) (now : String) :
    List CreateOrderReq → OrdersState → OrdersState × List Order
  | [], s => (s, [])
  | req :: rest, s =>
    match createOrder user now req s with
    | (s2, Except.ok o) =>
      let r := runCreates user now rest s2
      (r.1, o :: r.2)
    | (s2, Except.error _) => runCreates user now rest s2

theorem createOrder_error_state (user : Caller) (now : String)
    (req : CreateOrderReq) (s s2 : OrdersState) (e : ApiError)
    (h : createOrder user now req s = (s2, Except.error e)) : s2 = s := by
  by_cases hv : createValidationErrors req = []
  · rw [createOrder_ok user now req s hv] at h
    simp at h
  · rw [createOrder_err user now req s hv] at h
    exact (congrArg Prod.fst h).symm

theorem createOrder_ok_shape (user : Caller) (now : String)
    (req : CreateOrderReq) (s s2 : OrdersState) (o : Order)
    (h : createOrder user now req s = (s2, Except.ok o)) :
    o = newOrderOf user now req s.nextOrderNumericId ∧
    s2.nextOrderNumericId = s.nextOrderNumericId + 1 := by
  by_cases hv : createValidationErrors req = []
  · rw [createOrder_ok user now req s hv] at h
    rw [Prod.mk.injEq] at h
    obtain ⟨hfst, hsnd⟩ := h
    simp only [Except.ok.injEq] at hsnd
    refine ⟨hsnd.symm, ?_⟩
    rw [← hfst]
  · rw [createOrder_err user now req s hv] at h
    simp at h

theorem runCreates_ids (user : Caller) (now : String)
    (reqs : List CreateOrderReq) :
    ∀ s : OrdersState, ∃ ns : List Nat,
      (runCreates user now reqs s).2.map Order.id = ns.map generateOrderId ∧
      ns.Pairwise (· < ·) ∧
      (∀ n ∈ ns, s.nextOrderNumericId ≤ n) ∧
      s.nextOrderNumericId ≤ (runCreates user now reqs s).1.nextOrderNumericId ∧
      (∀ n ∈ ns, n < (runCreates user now reqs s).1.nextOrderNumericId) := by
  induction reqs with
  | nil =>
    intro s
    exact ⟨[], by simp [runCreates], List.Pairwise.nil, by simp, le_refl _,
      by simp⟩
  | cons req rest ih =>
    intro s
    cases hc : createOrder user now req s with
    | mk s2 res =>
      cases res with
      | error e =>
        have hs2 : s2 = s := createOrder_error_state user now req s s2 e hc
        subst hs2
        obtain ⟨ns, h1, h2, h3, h4, h5⟩ := ih s2
        refine ⟨ns, ?_, h2, h3, ?_, ?_⟩
        · simpa [runCreates, hc] using h1
        · simpa [runCreates, hc] using h4
        · simpa [runCreates, hc] using h5
      | ok o =>
        obtain ⟨hoeq, hnext⟩ := createOrder_ok_shape user now req s s2 o hc
        obtain ⟨ns, h1, h2, h3, h4, h5⟩ := ih s2
        refine ⟨s.nextOrderNumericId :: ns, ?_, ?_, ?_, ?_, ?_⟩
        · have hhead : o.id = generateOrderId s.nextOrderNumericId := by
            rw [hoeq]
            rfl
          simp only [runCreates, hc, List.map_cons, hhead, h1]
        · refine List.pairwise_cons.mpr ⟨fun m hm => ?_, h2⟩
          have := h3 m hm
          omega
        · intro n hn
          cases hn with
          | head => exact le_refl _
          | tail _ hm =>
            have := h3 n hm
            omega
        · have hsteps : (runCreates user now (req :: rest) s).1 =
              (runCreates user now rest s2).1 := by
            simp [runCreates, hc]
          rw [hsteps]
          omega
        · intro n hn
          have hsteps : (runCreates user now (req :: rest) s).1 =
              (runCreates user now rest s2).1 := by
            simp [runCreates, hc]
          rw [hsteps]
          cases hn with
          | head => omega
          | tail _ hm => exact h5 n hm

/-- C8: across any sequence of create operations in one process lifetime, the
ids of the successfully created orders are the fixed string `ORD-` followed
by decimal numeric suffixes that strictly increase across successive
creations and never drop below the counter's starting value (1010 from the
seeded initial state); consequently the ids are pairwise distinct. -/
theorem C8_unique_ids (user : Caller) (now : String)
    (reqs : List CreateOrderReq) (s : OrdersState) :
    ∃ ns : List Nat,
      (runCreates user now reqs s).2.map Order.id = ns.map generateOrderId ∧
      ns.Pairwise (· < ·) ∧
      (∀ n ∈ ns, s.nextOrderNumericId ≤ n) ∧
      ((runCreates user now reqs s).2.map Order.id).Pairwise (· ≠ ·) := by
  obtain ⟨ns, h1, h2, h3, h4, h5⟩ := runCreates_ids user now reqs s
  refine ⟨ns, h1, h2, h3, ?_⟩
  rw [h1]
  exact h2.map generateOrderId
    (fun a b hab heq => Nat.ne_of_lt hab (generateOrderId_injective heq))

/-- C8 witness: two successive creations from the seeded initial state
produce ids with strictly increasing suffixes at or above 1010, pairwise
distinct. -/
theorem C8_witness :
    ∃ ns : List Nat,
      (runCreates sampleUser "2026-02-03T12:10:00.000Z" [sampleReq, sampleReq]
        initialState).2.map Order.id = ns.map generateOrderId ∧
      ns.Pairwise (· < ·) ∧
      (∀ n ∈ ns, 1010 ≤ n) ∧
      ((runCreates sampleUser "2026-02-03T12:10:00.000Z" [sampleReq, sampleReq]
        initialState).2.map Order.id).Pairwise (· ≠ ·) :=
  C8_unique_ids sampleUser "2026-02-03T12:10:00.000Z" [sampleReq, sampleReq]
    initialState

end OrdersApi
